import Mathlib

/-!
Shallow embedding of the telemetry simulation and alerting engine of
`src/vite-project/src/App.jsx` (an IoT monitoring dashboard), together with
proofs of the specified properties.

Numbers are modelled as exact rationals (`ℚ`); JavaScript `Math.random()`
draws are passed in explicitly as parameters in `[0, 1)`; the JS object
keyed by device id is modelled as an association list `List (String × Reading)`
(JS objects have unique keys and preserve insertion order); a JS `TypeError`
thrown by reading a property of `undefined` is modelled as `Option.none`.
-/

namespace App

/-- Per-metric bounds, as in `DEFAULT_THRESHOLDS` and the settings form:
`{ min, max }`. -/
structure Bounds where
  min : ℚ
  max : ℚ
  deriving Repr, DecidableEq

/-- The process-wide threshold set `{ temp: {min,max}, humidity: {min,max} }`. -/
structure Thresholds where
  temp : Bounds
  humidity : Bounds
  deriving Repr, DecidableEq

/-- One device of `INITIAL_DEVICES`: `{ id, name, location, status }`
(`status` is the `powered` flag of the spec). -/
structure Device where
  id : String
  name : String
  location : String
  status : Bool
  deriving Repr, DecidableEq

/-- One entry of the `deviceData` mapping: `{ temp, humidity, status }`. -/
structure Reading where
  temp : ℚ
  humidity : ℚ
  status : Bool
  deriving Repr, DecidableEq

/-- JavaScript `parseFloat(x.toFixed(1))`: round to one decimal place.
ECMAScript `toFixed` picks the integer `n` minimizing `|n / 10 - x|` and on a
tie the larger `n`, which is round-half-up: `⌊10 x + 1/2⌋ / 10`. -/
def round1 (q : ℚ) : ℚ :=
  (round (q * 10) : ℤ) / 10

/-- The `Math.max(lo, Math.min(hi, v))` clamping pattern of the tick handler. -/
def jsClamp (lo hi v : ℚ) : ℚ :=
  max lo (min hi v)

/-- One simulation tick for a single device entry (the body of the
`initialDevices.forEach` in `useIoTData`, lines 157–177): if powered, a
bounded random walk clamped to `[min − margin, max + margin]`
(margin 5 for temperature, 10 for humidity, step drawn from `r*1 − 0.5`
resp. `r*2 − 1` with `r = Math.random()`); in every case both metrics are
then rounded to one decimal place (`toFixed(1)` is applied outside the
`if (status)` branch). `r1`, `r2` are the two `Math.random()` draws. -/
def tickDevice (th : Thresholds) (r1 r2 : ℚ) (d : Reading) : Reading :=
  let d' :=
    if d.status then
      { d with
        temp := jsClamp (th.temp.min - 5) (th.temp.max + 5) (d.temp + (r1 * 1 - 1/2))
        humidity := jsClamp (th.humidity.min - 10) (th.humidity.max + 10) (d.humidity + (r2 * 2 - 1)) }
    else d
  { d' with temp := round1 d'.temp, humidity := round1 d'.humidity }

/-- JS object update `{ ...m, [k]: v }` for a key already present: the value
at `k` is replaced in place, every other entry is untouched. -/
def setEntry (m : List (String × Reading)) (k : String) (v : Reading) :
    List (String × Reading) :=
  m.map fun kv => if kv.1 = k then (k, v) else kv

/-- The whole-mapping tick of `useIoTData` (lines 154–180): iterate over
`initialDevices`, advancing each device's entry with `tickDevice`.  Reading
`newData[device.id].status` for an id absent from the mapping throws a
`TypeError`, modelled as `none`. `rands` supplies the two `Math.random()`
draws consumed for each device id. -/
def tick (devices : List Device) (th : Thresholds) (rands : String → ℚ × ℚ)
    (data : List (String × Reading)) : Option (List (String × Reading)) :=
  devices.foldlM
    (fun m dev =>
      (m.lookup dev.id).map fun d =>
        setEntry m dev.id (tickDevice th (rands dev.id).1 (rands dev.id).2 d))
    data

/-- What `getDeviceCurrentData` returns.  In the no-data branch the source
returns `{ temp: 0, humidity: 0, status: false }` with no alert keys at all
(they read back as `undefined`), so the alert flags are `Option Bool`,
`none` meaning the key is absent. -/
structure CurrentData where
  temp : ℚ
  humidity : ℚ
  status : Bool
  tempAlert : Option Bool
  humidityAlert : Option Bool
  deriving Repr, DecidableEq

/-- `getDeviceCurrentData` (lines 199–209): look the device up in the
mapping; absent devices get the neutral default, present devices get their
reading together with derived alert flags
(`temp > max || temp < min`, `humidity > max || humidity < min`). -/
def getDeviceCurrentData (deviceData : List (String × Reading)) (th : Thresholds)
    (deviceId : String) : CurrentData :=
  match deviceData.lookup deviceId with
  | none => { temp := 0, humidity := 0, status := false,
              tempAlert := none, humidityAlert := none }
  | some d =>
      { temp := d.temp
        humidity := d.humidity
        status := d.status
        tempAlert := some (decide (d.temp > th.temp.max) || decide (d.temp < th.temp.min))
        humidityAlert := some (decide (d.humidity > th.humidity.max) || decide (d.humidity < th.humidity.min)) }

/-- `toggleStatus` (lines 186–197): reads `prevData[deviceId].status`, which
throws a `TypeError` when the id has no entry (modelled as `none`); otherwise
replaces that entry with its `status` flipped, keeping all other fields and
all other entries. -/
def toggleStatus (data : List (String × Reading)) (deviceId : String) :
    Option (List (String × Reading)) :=
  (data.lookup deviceId).map fun d =>
    setEntry data deviceId { d with status := !d.status }

/-- One point of the synthetic historical series.  The source also stores a
locale-dependent display label (`toLocaleTimeString`), a presentation field
derived from `timestamp` that the spec and claims do not mention; it is
omitted here. -/
structure HistPoint where
  timestamp : ℤ
  temp : ℚ
  humidity : ℚ
  deriving Repr, DecidableEq

/-- Point count of `createHistoricalData`'s `switch`: `'7d'` → 168,
`'3m'` → `30 * 3`, `'24h'` and every other string → 24. -/
def histCount (range : String) : ℕ :=
  if range = "7d" then 168 else if range = "3m" then 30 * 3 else 24

/-- Step of `createHistoricalData`:
`range === '3m' ? 86400000 : range === '7d' ? 3600000 : 3600000`. -/
def histStep (range : String) : ℤ :=
  if range = "3m" then 86400000 else if range = "7d" then 3600000 else 3600000

/-- `createHistoricalData` (lines 36–58): `count` points anchored at
`now = Date.now()`, `timestamp[i] = now − (count − i)·step`, temperature
drawn from `15 + r·15` and humidity from `30 + r·45` (`r = Math.random()`),
each rounded to one decimal.  `rT i`, `rH i` are the two draws of
iteration `i`. -/
def createHistoricalData (range : String) (now : ℤ) (rT rH : ℕ → ℚ) :
    List HistPoint :=
  (List.range (histCount range)).map fun (i : ℕ) =>
    { timestamp := now - ((histCount range : ℤ) - (i : ℤ)) * histStep range
      temp := round1 (15 + rT i * 15)
      humidity := round1 (30 + rH i * 45) }

/-- Left-pad the decimal digits of `n` with zeros to width `w`. -/
def padZeros (w : ℕ) (n : ℕ) : String :=
  let s := toString n
  String.mk (List.replicate (w - s.length) '0') ++ s

/-- JavaScript `new Date(t).toISOString()`, modelled from the ECMAScript
specification: proleptic-Gregorian UTC rendered as
`YYYY-MM-DDTHH:mm:ss.sssZ`.  Faithful for timestamps whose year lies in
0–9999 (outside that JS switches to an expanded ±YYYYYY form).  The civil
date is computed with the standard era decomposition of the day number. -/
def toISOString (t : ℤ) : String :=
  let msN := (t.emod 86400000).toNat
  let days := t.ediv 86400000
  let hour := msN / 3600000
  let minute := msN % 3600000 / 60000
  let second := msN % 60000 / 1000
  let milli := msN % 1000
  let z := days + 719468
  let era := z.ediv 146097
  let doe := (z.emod 146097).toNat
  let yoe := (doe - doe / 1460 + doe / 36524 - doe / 146096) / 365
  let doy := doe - (365 * yoe + yoe / 4 - yoe / 100)
  let mp := (5 * doy + 2) / 153
  let day := doy - (153 * mp + 2) / 5 + 1
  let month := if mp < 10 then mp + 3 else mp - 9
  let year : ℤ := (yoe : ℤ) + era * 400 + (if month ≤ 2 then 1 else 0)
  padZeros 4 year.toNat ++ "-" ++ padZeros 2 month ++ "-" ++ padZeros 2 day ++
    "T" ++ padZeros 2 hour ++ ":" ++ padZeros 2 minute ++ ":" ++ padZeros 2 second ++
    "." ++ padZeros 3 milli ++ "Z"

/-- JavaScript number-to-string coercion (the implicit `toString` inside
`row.join(',')`), modelled for the numbers this program exports: finite
decimals with at most one fractional digit.  An integral value prints with
no decimal point (`20` for `20.0`); otherwise the single fractional digit
follows a point. -/
def jsNumString (q : ℚ) : String :=
  if q.den = 1 then toString q.num
  else
    (if q < 0 then "-" else "") ++
      toString (|q|.num / (|q|.den : ℤ)) ++ "." ++ toString ((|q| * 10).num % 10)

/-- `convertToCsv` (lines 65–79): empty input gives the empty string;
otherwise the fixed header `Timestamp,Temperature,Humidity` followed by one
newline-terminated row per point, the timestamp rendered by `toISOString`
and the two metric values coerced to strings verbatim. -/
def convertToCsv (data : List HistPoint) : String :=
  if data.length = 0 then ""
  else
    data.foldl
      (fun acc d =>
        acc ++ toISOString d.timestamp ++ "," ++ jsNumString d.temp ++ "," ++
          jsNumString d.humidity ++ "\n")
      ("Timestamp,Temperature,Humidity" ++ "\n")

/-- The threshold store of the dashboard provider (lines 858–868): the
active `thresholds` React state and the `iotThresholds` key of
`localStorage` (`none` when nothing has been persisted yet). -/
structure ThresholdStore where
  active : Thresholds
  persisted : Option Thresholds
  deriving Repr, DecidableEq

/-- `setThresholds` (lines 865–868): replace the active set and persist it. -/
def setThresholds (_s : ThresholdStore) (n : Thresholds) : ThresholdStore :=
  { active := n, persisted := some n }

/-- Validation message of the first `if` of `handleSave`. -/
def tempRangeError : String :=
  "Temperature max limit must be greater than min limit."

/-- Validation message of the second `if` of `handleSave`. -/
def humidityRangeError : String :=
  "Humidity max limit must be greater than min limit."

/-- `handleSave` (lines 541–558): validate the candidate (temperature range
first, then humidity); on failure report the failing metric and leave the
store untouched; on success commit via `setThresholds`.  Returns the new
store and the `validationError` value. -/
def handleSave (s : ThresholdStore) (candidate : Thresholds) :
    ThresholdStore × Option String :=
  if candidate.temp.max ≤ candidate.temp.min then (s, some tempRangeError)
  else if candidate.humidity.max ≤ candidate.humidity.min then
    (s, some humidityRangeError)
  else (setThresholds s candidate, none)

/-- One point of the live trend chart kept by `LiveMonitorTab`. -/
structure LivePoint where
  time : String
  temp : ℚ
  humidity : ℚ
  deriving Repr, DecidableEq

/-- One append to the live history buffer (lines 401–412):
`[...prev.slice(-9), newDataPoint]` — keep the last nine points and append
the new one at the tail (`slice(-9)` keeps everything when fewer than nine
points exist). -/
def appendLive (prev : List LivePoint) (p : LivePoint) : List LivePoint :=
  prev.drop (prev.length - 9) ++ [p]

/-! ### Helper lemmas -/

/-- Rounding to one decimal moves a value by at most `1/20`. -/
theorem round1_close (q : ℚ) : |round1 q - q| ≤ 1/20 := by
  have h := abs_sub_round (q * 10)
  rw [abs_sub_comm] at h
  have heq : round1 q - q = ((round (q * 10) : ℚ) - q * 10) / 10 := by
    rw [round1]; ring
  rw [heq, abs_div, abs_of_pos (show (0:ℚ) < 10 by norm_num)]
  linarith

/-- Rounding to one decimal is idempotent. -/
theorem round1_idem (q : ℚ) : round1 (round1 q) = round1 q := by
  rw [round1, round1]
  rw [div_mul_cancel₀ ((round (q * 10) : ℤ) : ℚ) (by norm_num : (10:ℚ) ≠ 0)]
  rw [round_intCast]

/-- The clamped value stays within `[lo, hi]` when the bounds are ordered. -/
theorem jsClamp_mem (lo hi v : ℚ) (h : lo ≤ hi) :
    lo ≤ jsClamp lo hi v ∧ jsClamp lo hi v ≤ hi := by
  constructor
  · exact le_max_left _ _
  · exact max_le h (min_le_left _ _)

/-- Looking up the updated key after `setEntry` yields the new value,
provided the key was present. -/
theorem lookup_setEntry_self (m : List (String × Reading)) (k : String) (v : Reading)
    (d : Reading) (h : m.lookup k = some d) :
    (setEntry m k v).lookup k = some v := by
  induction m with
  | nil => simp [List.lookup] at h
  | cons kv rest ih =>
      obtain ⟨a, b⟩ := kv
      by_cases hk : a = k
      · subst hk
        simp [setEntry, List.lookup_cons]
      · have hba : (k == a) = false := beq_false_of_ne (Ne.symm hk)
        simp only [List.lookup_cons, hba] at h
        simp only [setEntry, List.map_cons, if_neg hk, List.lookup_cons, hba]
        exact ih h

/-- Every other key is untouched by `setEntry`. -/
theorem lookup_setEntry_ne (m : List (String × Reading)) (k : String) (v : Reading)
    (k' : String) (h : k' ≠ k) :
    (setEntry m k v).lookup k' = m.lookup k' := by
  induction m with
  | nil => simp [setEntry]
  | cons kv rest ih =>
      obtain ⟨a, b⟩ := kv
      by_cases hk : a = k
      · subst hk
        have hba : (k' == a) = false := beq_false_of_ne h
        simpa [setEntry, List.lookup_cons, hba] using ih
      · simp only [setEntry, List.map_cons, if_neg hk, List.lookup_cons]
        cases hba : (k' == a) with
        | true => rfl
        | false => exact ih

/-! ### C1: alert flags -/

/-- C1: for every reading present in the mapping, the derived alert flag of a
metric is `true` exactly when the value is strictly below the threshold
minimum or strictly above the maximum; with a valid threshold range
(`min < max`, the data-model invariant), a value equal to `min` or to `max`
never alerts — for temperature and humidity alike. -/
theorem alert_iff_strictly_outside (data : List (String × Reading)) (th : Thresholds)
    (deviceId : String) (d : Reading) (h : data.lookup deviceId = some d) :
    ((getDeviceCurrentData data th deviceId).tempAlert = some true ↔
      (d.temp < th.temp.min ∨ th.temp.max < d.temp)) ∧
    ((getDeviceCurrentData data th deviceId).humidityAlert = some true ↔
      (d.humidity < th.humidity.min ∨ th.humidity.max < d.humidity)) ∧
    (th.temp.min < th.temp.max → (d.temp = th.temp.min ∨ d.temp = th.temp.max) →
      (getDeviceCurrentData data th deviceId).tempAlert = some false) ∧
    (th.humidity.min < th.humidity.max →
      (d.humidity = th.humidity.min ∨ d.humidity = th.humidity.max) →
      (getDeviceCurrentData data th deviceId).humidityAlert = some false) := by
  simp only [getDeviceCurrentData, h]
  refine ⟨?_, ?_, ?_, ?_⟩
  · simp only [Option.some.injEq, Bool.or_eq_true, decide_eq_true_eq, gt_iff_lt]
    exact or_comm
  · simp only [Option.some.injEq, Bool.or_eq_true, decide_eq_true_eq, gt_iff_lt]
    exact or_comm
  · intro hv hb
    rcases hb with hb | hb <;>
      simp [hb, not_lt.mpr hv.le, lt_irrefl]
  · intro hv hb
    rcases hb with hb | hb <;>
      simp [hb, not_lt.mpr hv.le, lt_irrefl]

/-- Witness for C1 at a concrete state: device `dev-001` reading 20 °C / 50 %
against thresholds 18–25 / 40–60 does not alert on temperature. -/
theorem alert_iff_strictly_outside_witness :
    (getDeviceCurrentData [("dev-001", ⟨20, 50, true⟩)]
        ⟨⟨18, 25⟩, ⟨40, 60⟩⟩ "dev-001").tempAlert ≠ some true := by
  intro hc
  have h := alert_iff_strictly_outside [("dev-001", ⟨20, 50, true⟩)]
    ⟨⟨18, 25⟩, ⟨40, 60⟩⟩ "dev-001" ⟨20, 50, true⟩ rfl
  rcases h.1.mp hc with h' | h' <;> norm_num at h'

/-! ### C7: missing device yields the neutral state -/

/-- C7: a device id with no entry in the readings mapping yields the defined
neutral state — temperature 0, humidity 0, not powered, and no alert keys at
all (`undefined` in the source, `none` here) — rather than failing. -/
theorem missing_device_neutral (data : List (String × Reading)) (th : Thresholds)
    (deviceId : String) (h : data.lookup deviceId = none) :
    getDeviceCurrentData data th deviceId =
      { temp := 0, humidity := 0, status := false,
        tempAlert := none, humidityAlert := none } := by
  simp [getDeviceCurrentData, h]

/-- Witness for C7: an empty mapping has no entry for `dev-404`. -/
theorem missing_device_neutral_witness :
    getDeviceCurrentData [] ⟨⟨18, 25⟩, ⟨40, 60⟩⟩ "dev-404" =
      { temp := 0, humidity := 0, status := false,
        tempAlert := none, humidityAlert := none } :=
  missing_device_neutral [] ⟨⟨18, 25⟩, ⟨40, 60⟩⟩ "dev-404" rfl

/-! ### C5: threshold validation and commit -/

/-- C5: saving a candidate threshold set fails exactly when
`temp.max ≤ temp.min` or `humidity.max ≤ humidity.min`, the error naming the
failing metric; on failure both the active set and the persisted copy are
untouched, and on success the candidate becomes the active set and is
persisted. -/
theorem handleSave_spec (s : ThresholdStore) (c : Thresholds) :
    ((handleSave s c).2 ≠ none ↔
      (c.temp.max ≤ c.temp.min ∨ c.humidity.max ≤ c.humidity.min)) ∧
    (c.temp.max ≤ c.temp.min → handleSave s c = (s, some tempRangeError)) ∧
    (¬ c.temp.max ≤ c.temp.min → c.humidity.max ≤ c.humidity.min →
      handleSave s c = (s, some humidityRangeError)) ∧
    ((handleSave s c).2 ≠ none → (handleSave s c).1 = s) ∧
    ((handleSave s c).2 = none →
      (handleSave s c).1.active = c ∧ (handleSave s c).1.persisted = some c) := by
  unfold handleSave setThresholds
  split_ifs with h1 h2 <;>
    simp_all

/-- Witness for C5: the spec's example `{temperature: {min: 25, max: 18}}`
fails with the temperature-range error and leaves the store unchanged. -/
theorem handleSave_spec_witness :
    handleSave ⟨⟨⟨18, 25⟩, ⟨40, 60⟩⟩, none⟩ ⟨⟨25, 18⟩, ⟨40, 60⟩⟩ =
      (⟨⟨⟨18, 25⟩, ⟨40, 60⟩⟩, none⟩, some tempRangeError) :=
  (handleSave_spec ⟨⟨⟨18, 25⟩, ⟨40, 60⟩⟩, none⟩ ⟨⟨25, 18⟩, ⟨40, 60⟩⟩).2.1 (by norm_num)

/-! ### C10: temperature range is checked first -/

/-- C10: when both metric ranges are invalid, the reported error is the
temperature message, and the humidity message is never reported while the
temperature range is invalid. -/
theorem handleSave_temp_first (s : ThresholdStore) (c : Thresholds)
    (ht : c.temp.max ≤ c.temp.min) :
    (handleSave s c).2 = some tempRangeError ∧
    (handleSave s c).2 ≠ some humidityRangeError := by
  unfold handleSave
  rw [if_pos ht]
  refine ⟨rfl, ?_⟩
  simp only [Option.some.injEq, ne_eq]
  intro hc
  have : "T" = "H" := congrArg (fun s => s.take 1) hc
  simp [String.take] at this

/-- Witness for C10: a candidate with both ranges inverted reports the
temperature error. -/
theorem handleSave_temp_first_witness :
    (handleSave ⟨⟨⟨18, 25⟩, ⟨40, 60⟩⟩, none⟩ ⟨⟨25, 18⟩, ⟨60, 40⟩⟩).2 =
      some tempRangeError :=
  (handleSave_temp_first ⟨⟨⟨18, 25⟩, ⟨40, 60⟩⟩, none⟩ ⟨⟨25, 18⟩, ⟨60, 40⟩⟩
    (by norm_num)).1

/-! ### C4: historical window aggregator -/

/-- The series always has `histCount range` points. -/
theorem createHistoricalData_length (range : String) (now : ℤ) (rT rH : ℕ → ℚ) :
    (createHistoricalData range now rT rH).length = histCount range := by
  simp [createHistoricalData]

/-- Closed form of the `i`-th generated point. -/
theorem createHistoricalData_get (range : String) (now : ℤ) (rT rH : ℕ → ℚ)
    (i : ℕ) (h : i < (createHistoricalData range now rT rH).length) :
    (createHistoricalData range now rT rH).get ⟨i, h⟩ =
      { timestamp := now - ((histCount range : ℤ) - (i : ℤ)) * histStep range
        temp := round1 (15 + rT i * 15)
        humidity := round1 (30 + rH i * 45) } := by
  simp [createHistoricalData, List.get_eq_getElem]

/-- Both possible steps are positive. -/
theorem histStep_pos (range : String) : 0 < histStep range := by
  unfold histStep
  split_ifs <;> norm_num

/-- C4: the range table — 24 points stepping 3 600 000 ms for `24h`,
168 points at the same step for `7d`, 90 points stepping 86 400 000 ms for
`3m` — any unrecognized range behaves identically to `24h`; the `i`-th
timestamp is `now − (count − i)·step`, consecutive timestamps are exactly
one step apart, the series is strictly increasing and ends strictly before
`now`. -/
theorem createHistoricalData_spec (range : String) (now : ℤ) (rT rH : ℕ → ℚ) :
    ((createHistoricalData "24h" now rT rH).length = 24 ∧ histStep "24h" = 3600000) ∧
    ((createHistoricalData "7d" now rT rH).length = 168 ∧ histStep "7d" = 3600000) ∧
    ((createHistoricalData "3m" now rT rH).length = 90 ∧ histStep "3m" = 86400000) ∧
    (range ≠ "7d" → range ≠ "3m" →
      createHistoricalData range now rT rH = createHistoricalData "24h" now rT rH) ∧
    (∀ i : ℕ, ∀ h : i < (createHistoricalData range now rT rH).length,
      ((createHistoricalData range now rT rH).get ⟨i, h⟩).timestamp =
        now - ((histCount range : ℤ) - (i : ℤ)) * histStep range) ∧
    (∀ i : ℕ, ∀ h : i + 1 < (createHistoricalData range now rT rH).length,
      ((createHistoricalData range now rT rH).get ⟨i + 1, h⟩).timestamp =
        ((createHistoricalData range now rT rH).get ⟨i, Nat.lt_of_succ_lt h⟩).timestamp +
          histStep range) ∧
    (∀ i j : ℕ, ∀ hij : i < j, ∀ hj : j < (createHistoricalData range now rT rH).length,
      ((createHistoricalData range now rT rH).get ⟨i, lt_trans hij hj⟩).timestamp <
        ((createHistoricalData range now rT rH).get ⟨j, hj⟩).timestamp) ∧
    (∀ i : ℕ, ∀ h : i < (createHistoricalData range now rT rH).length,
      ((createHistoricalData range now rT rH).get ⟨i, h⟩).timestamp < now) := by
  have hstep := histStep_pos range
  have hlen := createHistoricalData_length range now rT rH
  refine ⟨⟨?_, rfl⟩, ⟨?_, rfl⟩, ⟨?_, rfl⟩, ?_, ?_, ?_, ?_, ?_⟩
  · rw [createHistoricalData_length]; rfl
  · rw [createHistoricalData_length]; rfl
  · rw [createHistoricalData_length]; rfl
  · intro h7 h3
    simp [createHistoricalData, histCount, histStep, h7, h3]
  · intro i h
    rw [createHistoricalData_get]
  · intro i h
    rw [createHistoricalData_get, createHistoricalData_get]
    dsimp only
    push_cast
    ring
  · intro i j hij hj
    rw [createHistoricalData_get, createHistoricalData_get]
    dsimp only
    have hij' : (i : ℤ) < (j : ℤ) := by exact_mod_cast hij
    have : ((histCount range : ℤ) - (j : ℤ)) * histStep range <
        ((histCount range : ℤ) - (i : ℤ)) * histStep range :=
      mul_lt_mul_of_pos_right (by linarith) hstep
    linarith
  · intro i h
    rw [createHistoricalData_get]
    dsimp only
    have hi : (i : ℤ) < (histCount range : ℤ) := by
      rw [hlen] at h
      exact_mod_cast h
    have : 0 < ((histCount range : ℤ) - (i : ℤ)) * histStep range :=
      mul_pos (by linarith) hstep
    linarith

/-- Witness for C4: the unrecognized range `1y` generates the same series as
`24h`. -/
theorem createHistoricalData_spec_witness :
    createHistoricalData "1y" 0 (fun _ => 0) (fun _ => 0) =
      createHistoricalData "24h" 0 (fun _ => 0) (fun _ => 0) :=
  (createHistoricalData_spec "1y" 0 (fun _ => 0) (fun _ => 0)).2.2.2.1
    (by decide) (by decide)

/-! ### C6: series exporter -/

/-- One CSV row as the spec describes it: ISO-8601 UTC timestamp and the two
metric values verbatim, comma-separated, newline-terminated. -/
def csvRow (d : HistPoint) : String :=
  toISOString d.timestamp ++ "," ++ jsNumString d.temp ++ "," ++
    jsNumString d.humidity ++ "\n"

/-- The row block of the spec's `serialize`: one `csvRow` per point, in
order. -/
def csvRowsSpec : List HistPoint → String
  | [] => ""
  | d :: rest => csvRow d ++ csvRowsSpec rest

/-- The spec's `serialize` contract, written from its words (empty input
gives the empty string, otherwise the fixed header then one row per point),
to be compared with the source's `convertToCsv`. -/
def serializeSpec (data : List HistPoint) : String :=
  if data = [] then ""
  else "Timestamp,Temperature,Humidity" ++ "\n" ++ csvRowsSpec data

/-- The accumulator form of the source's row loop agrees with the recursive
row block. -/
theorem foldl_csvRow (l : List HistPoint) (acc : String) :
    l.foldl
      (fun acc d =>
        acc ++ toISOString d.timestamp ++ "," ++ jsNumString d.temp ++ "," ++
          jsNumString d.humidity ++ "\n")
      acc = acc ++ csvRowsSpec l := by
  induction l generalizing acc with
  | nil => exact (String.append_empty acc).symm
  | cons d rest ih =>
      rw [List.foldl_cons, ih, csvRowsSpec]
      simp only [csvRow, String.append_assoc]

/-- C6: `convertToCsv` returns the empty string on the empty series (no
header for zero rows); on a non-empty series it returns the fixed header
followed by one newline-terminated row per point, timestamp in ISO-8601 UTC
and the metric values verbatim; on the spec's concrete one-point series it
returns exactly the expected text. -/
theorem convertToCsv_spec (data : List HistPoint) (hne : data ≠ []) :
    convertToCsv [] = "" ∧
    convertToCsv data =
      "Timestamp,Temperature,Humidity" ++ "\n" ++ csvRowsSpec data ∧
    convertToCsv data = serializeSpec data ∧
    convertToCsv [{ timestamp := 0, temp := 20, humidity := 50 }] =
      "Timestamp,Temperature,Humidity\n1970-01-01T00:00:00.000Z,20,50\n" := by
  have hrows : convertToCsv data =
      "Timestamp,Temperature,Humidity" ++ "\n" ++ csvRowsSpec data := by
    unfold convertToCsv
    rw [if_neg (by simpa using hne), foldl_csvRow]
  refine ⟨rfl, hrows, ?_, by decide⟩
  rw [hrows, serializeSpec, if_neg hne]

/-- Witness for C6 at the spec's one-point series. -/
theorem convertToCsv_spec_witness :
    convertToCsv [{ timestamp := 0, temp := 20, humidity := 50 }] =
      "Timestamp,Temperature,Humidity\n1970-01-01T00:00:00.000Z,20,50\n" :=
  (convertToCsv_spec [{ timestamp := 0, temp := 20, humidity := 50 }]
    (by decide)).2.2.2

/-! ### C9: live history buffer -/

/-- One append never leaves more than ten points, whatever the previous
buffer held. -/
theorem appendLive_length (prev : List LivePoint) (p : LivePoint) :
    (appendLive prev p).length = min prev.length 9 + 1 := by
  simp only [appendLive, List.length_append, List.length_drop, List.length_cons,
    List.length_nil]
  omega

/-- Appending a whole sequence to the empty buffer keeps exactly the last
ten points, in order. -/
theorem foldl_appendLive (ps : List LivePoint) :
    ps.foldl appendLive [] = ps.drop (ps.length - 10) := by
  induction ps using List.reverseRecOn with
  | nil => rfl
  | append_singleton qs p ih =>
      rw [List.foldl_append, List.foldl_cons, List.foldl_nil, ih, appendLive,
        List.length_drop, List.drop_drop]
      have hlen : (qs ++ [p]).length = qs.length + 1 := by simp
      rw [hlen, List.drop_append_of_le_length (by omega)]
      congr 2
      omega

/-- C9: the live history buffer holds at most ten entries after any sequence
of appends; each append puts the new point at the tail and evicts from the
head once capacity is exceeded, so the buffer always equals the last ten
appended points in append order, and after eleven appends of pairwise
distinct points the first appended point is gone and the remaining ten keep
append order. -/
theorem liveHistory_spec (ps : List LivePoint) :
    (∀ init : List LivePoint, init.length ≤ 10 →
      (ps.foldl appendLive init).length ≤ 10) ∧
    ps.foldl appendLive [] = ps.drop (ps.length - 10) ∧
    (∀ p0 : LivePoint, ∀ rest : List LivePoint, ps = p0 :: rest →
      rest.length = 10 → p0 ∉ rest →
      ps.foldl appendLive [] = rest ∧ p0 ∉ ps.foldl appendLive []) := by
  refine ⟨?_, foldl_appendLive ps, ?_⟩
  · intro init hinit
    induction ps generalizing init with
    | nil => simpa using hinit
    | cons p rest ih =>
        rw [List.foldl_cons]
        exact ih (appendLive init p) (by rw [appendLive_length]; omega)
  · intro p0 rest hps hlen hnotin
    subst hps
    have hdrop : (p0 :: rest).foldl appendLive [] = rest := by
      rw [foldl_appendLive, List.length_cons, hlen]
      rfl
    exact ⟨hdrop, by rw [hdrop]; exact hnotin⟩

/-- Witness for C9: eleven numbered points; the buffer drops the first and
keeps the remaining ten in order. -/
theorem liveHistory_spec_witness :
    ([⟨"a", 0, 0⟩, ⟨"a", 1, 0⟩, ⟨"a", 2, 0⟩, ⟨"a", 3, 0⟩, ⟨"a", 4, 0⟩,
      ⟨"a", 5, 0⟩, ⟨"a", 6, 0⟩, ⟨"a", 7, 0⟩, ⟨"a", 8, 0⟩, ⟨"a", 9, 0⟩,
      ⟨"a", 10, 0⟩] : List LivePoint).foldl appendLive [] =
      [⟨"a", 1, 0⟩, ⟨"a", 2, 0⟩, ⟨"a", 3, 0⟩, ⟨"a", 4, 0⟩, ⟨"a", 5, 0⟩,
        ⟨"a", 6, 0⟩, ⟨"a", 7, 0⟩, ⟨"a", 8, 0⟩, ⟨"a", 9, 0⟩, ⟨"a", 10, 0⟩] :=
  ((liveHistory_spec _).2.2 ⟨"a", 0, 0⟩
    [⟨"a", 1, 0⟩, ⟨"a", 2, 0⟩, ⟨"a", 3, 0⟩, ⟨"a", 4, 0⟩, ⟨"a", 5, 0⟩,
      ⟨"a", 6, 0⟩, ⟨"a", 7, 0⟩, ⟨"a", 8, 0⟩, ⟨"a", 9, 0⟩, ⟨"a", 10, 0⟩]
    rfl (by decide) (by decide)).1

/-! ### C2: tick of a powered device -/

/-- C2 (amended): for a powered device with a valid threshold range, one
tick yields `round1 (clamp (previous + u) (min − margin) (max + margin))`
per metric, with `u = r·1 − 0.5` for temperature and `u = r·2 − 1` for
humidity (`r = Math.random() ∈ [0, 1)`), so the pre-clamp change is at most
`δ` in magnitude (0.5 resp. 1); the returned value lies within
`[min − margin − 1/20, max + margin + 1/20]` — rounding can step outside
the clamp interval by up to `1/20` when its bounds are not multiples of
`0.1` — and the rounded value is exactly what the mapping records and the
next tick looks up as `previous`. -/
theorem tick_powered_spec (th : Thresholds) (r1 r2 : ℚ) (d : Reading)
    (h1 : 0 ≤ r1) (h1' : r1 < 1) (h2 : 0 ≤ r2) (h2' : r2 < 1)
    (hd : d.status = true)
    (hv1 : th.temp.min < th.temp.max) (hv2 : th.humidity.min < th.humidity.max) :
    (tickDevice th r1 r2 d).temp =
      round1 (jsClamp (th.temp.min - 5) (th.temp.max + 5) (d.temp + (r1 * 1 - 1/2))) ∧
    (tickDevice th r1 r2 d).humidity =
      round1 (jsClamp (th.humidity.min - 10) (th.humidity.max + 10)
        (d.humidity + (r2 * 2 - 1))) ∧
    |r1 * 1 - 1/2| ≤ 1/2 ∧ |r2 * 2 - 1| ≤ 1 ∧
    th.temp.min - 5 - 1/20 ≤ (tickDevice th r1 r2 d).temp ∧
    (tickDevice th r1 r2 d).temp ≤ th.temp.max + 5 + 1/20 ∧
    th.humidity.min - 10 - 1/20 ≤ (tickDevice th r1 r2 d).humidity ∧
    (tickDevice th r1 r2 d).humidity ≤ th.humidity.max + 10 + 1/20 ∧
    (tickDevice th r1 r2 d).status = d.status ∧
    (∀ dev : Device, ∀ rands : String → ℚ × ℚ, ∀ data : List (String × Reading),
      rands dev.id = (r1, r2) → data.lookup dev.id = some d →
      (tick [dev] th rands data).bind (fun m => m.lookup dev.id) =
        some (tickDevice th r1 r2 d)) := by
  have htemp : (tickDevice th r1 r2 d).temp =
      round1 (jsClamp (th.temp.min - 5) (th.temp.max + 5) (d.temp + (r1 * 1 - 1/2))) := by
    simp [tickDevice, hd]
  have hhum : (tickDevice th r1 r2 d).humidity =
      round1 (jsClamp (th.humidity.min - 10) (th.humidity.max + 10)
        (d.humidity + (r2 * 2 - 1))) := by
    simp [tickDevice, hd]
  have hmemT := jsClamp_mem (th.temp.min - 5) (th.temp.max + 5)
    (d.temp + (r1 * 1 - 1/2)) (by linarith)
  have hmemH := jsClamp_mem (th.humidity.min - 10) (th.humidity.max + 10)
    (d.humidity + (r2 * 2 - 1)) (by linarith)
  have hcT := abs_le.mp (round1_close
    (jsClamp (th.temp.min - 5) (th.temp.max + 5) (d.temp + (r1 * 1 - 1/2))))
  have hcH := abs_le.mp (round1_close
    (jsClamp (th.humidity.min - 10) (th.humidity.max + 10)
      (d.humidity + (r2 * 2 - 1))))
  refine ⟨htemp, hhum, ?_, ?_, ?_, ?_, ?_, ?_, ?_, ?_⟩
  · rw [abs_le]; constructor <;> linarith
  · rw [abs_le]; constructor <;> linarith
  · rw [htemp]; linarith [hmemT.1, hcT.1, hcT.2]
  · rw [htemp]; linarith [hmemT.2, hcT.1, hcT.2]
  · rw [hhum]; linarith [hmemH.1, hcH.1, hcH.2]
  · rw [hhum]; linarith [hmemH.2, hcH.1, hcH.2]
  · simp [tickDevice, hd]
  · intro dev rands data hr hl
    have htick : tick [dev] th rands data =
        some (setEntry data dev.id (tickDevice th r1 r2 d)) := by
      simp [tick, List.foldlM, hl, hr]
    rw [htick]
    exact lookup_setEntry_self data dev.id _ d hl

/-- Witness for C2 at concrete inputs: device at 20 °C with a draw of 0.5
(zero step) against thresholds 18–25. -/
theorem tick_powered_spec_witness :
    (tickDevice ⟨⟨18, 25⟩, ⟨40, 60⟩⟩ (1/2) (1/2) ⟨20, 50, true⟩).temp =
      round1 (jsClamp (18 - 5) (25 + 5) (20 + ((1/2) * 1 - 1/2))) :=
  (tick_powered_spec ⟨⟨18, 25⟩, ⟨40, 60⟩⟩ (1/2) (1/2) ⟨20, 50, true⟩
    (by norm_num) (by norm_num) (by norm_num) (by norm_num) rfl
    (by norm_num) (by norm_num)).1

/-- C2 as stated is false: with the valid committed thresholds
`temp ∈ [25.44, 30]` (enterable in the settings form) and the reachable
seeded previous value 20.44, a draw of 0 clamps the walk to the lower bound
20.44, which then rounds to 20.4 — strictly below `min − margin`. -/
theorem tick_powered_counterexample :
    (tickDevice ⟨⟨636/25, 30⟩, ⟨40, 60⟩⟩ 0 (1/2) ⟨511/25, 50, true⟩).temp <
      (636/25 : ℚ) - 5 := by
  norm_num [tickDevice, jsClamp, round1, round_eq]

/-! ### C3: tick of an unpowered device -/

/-- C3 (amended): a tick applies no random walk to an unpowered device but
still rounds both of its values to one decimal place; the values are
unchanged whenever they already carry at most one decimal, and — since every
post-tick value is such a fixed point of rounding — two consecutive ticks
always yield identical temperature and humidity for an unpowered device
(frozen, not reset to zero). -/
theorem tick_unpowered_spec (th : Thresholds) (r1 r2 r1' r2' : ℚ) (d : Reading)
    (hd : d.status = false) :
    tickDevice th r1 r2 d =
      { d with temp := round1 d.temp, humidity := round1 d.humidity } ∧
    (round1 d.temp = d.temp → round1 d.humidity = d.humidity →
      tickDevice th r1 r2 d = d) ∧
    tickDevice th r1' r2' (tickDevice th r1 r2 d) = tickDevice th r1 r2 d := by
  have hfst : tickDevice th r1 r2 d =
      { d with temp := round1 d.temp, humidity := round1 d.humidity } := by
    simp [tickDevice, hd]
  refine ⟨hfst, ?_, ?_⟩
  · intro ht hh
    rw [hfst, ht, hh]
  · have hd' : (tickDevice th r1 r2 d).status = false := by rw [hfst]; exact hd
    have h2 : tickDevice th r1' r2' (tickDevice th r1 r2 d) =
        { tickDevice th r1 r2 d with
            temp := round1 (tickDevice th r1 r2 d).temp
            humidity := round1 (tickDevice th r1 r2 d).humidity } := by
      generalize tickDevice th r1 r2 d = e at hd' ⊢
      simp [tickDevice, hd']
    rw [h2, hfst]
    simp [round1_idem]

/-- Witness for C3: an unpowered device holding one-decimal values is left
exactly in place by a tick. -/
theorem tick_unpowered_spec_witness :
    tickDevice ⟨⟨18, 25⟩, ⟨40, 60⟩⟩ 0 0 ⟨20, 50, false⟩ = ⟨20, 50, false⟩ :=
  (tick_unpowered_spec ⟨⟨18, 25⟩, ⟨40, 60⟩⟩ 0 0 0 0 ⟨20, 50, false⟩ rfl).2.1
    (by norm_num [round1, round_eq]) (by norm_num [round1, round_eq])

/-- C3 as stated is false: the unpowered device seeded at 22.57 °C (a
reachable initial value) is changed by the very first tick, which rounds it
to 22.6. -/
theorem tick_unpowered_counterexample :
    (tickDevice ⟨⟨18, 25⟩, ⟨40, 60⟩⟩ 0 0 ⟨2257/100, 50, false⟩).temp ≠
      2257/100 := by
  norm_num [tickDevice, round1, round_eq]

/-! ### C8: toggling a device's power -/

/-- C8 (amended): for a device present in the mapping, `toggleStatus` flips
exactly that device's `status` flag — its other fields and every other
device's entry are untouched; for an id with no entry the call throws (reads
`status` of `undefined`), modelled as `none`, instead of being a no-op. -/
theorem toggleStatus_spec (data : List (String × Reading)) (deviceId : String)
    (d : Reading) :
    (data.lookup deviceId = some d →
      toggleStatus data deviceId =
        some (setEntry data deviceId { d with status := !d.status }) ∧
      (setEntry data deviceId { d with status := !d.status }).lookup deviceId =
        some { d with status := !d.status } ∧
      (∀ other : String, other ≠ deviceId →
        (setEntry data deviceId { d with status := !d.status }).lookup other =
          data.lookup other)) ∧
    (data.lookup deviceId = none → toggleStatus data deviceId = none) := by
  constructor
  · intro h
    exact ⟨by simp [toggleStatus, h],
      lookup_setEntry_self data deviceId _ d h,
      fun other ho => lookup_setEntry_ne data deviceId _ other ho⟩
  · intro h
    simp [toggleStatus, h]

/-- Witness for C8: toggling `dev-001` in a one-device mapping flips its
flag. -/
theorem toggleStatus_spec_witness :
    toggleStatus [("dev-001", (⟨20, 50, true⟩ : Reading))] "dev-001" =
      some (setEntry [("dev-001", ⟨20, 50, true⟩)] "dev-001" ⟨20, 50, false⟩) :=
  ((toggleStatus_spec [("dev-001", ⟨20, 50, true⟩)] "dev-001"
    ⟨20, 50, true⟩).1 rfl).1

/-- C8 as stated is false for unknown ids: toggling `dev-999`, which has no
entry, does not leave the state unchanged — the call fails (a `TypeError`
in the source, `none` here). -/
theorem toggleStatus_counterexample :
    toggleStatus [("dev-001", (⟨20, 50, true⟩ : Reading))] "dev-999" ≠
      some [("dev-001", ⟨20, 50, true⟩)] := by
  simp [toggleStatus, List.lookup]

end App
